import Mathlib

/-!
Verification of `src/flybys/render.py` (repository `yaman1337/neo-data`).

The module loads a whitespace-delimited shape-model file through
`pandas.read_csv`, shows the mesh in a `visvis` window, and renders a
rotating-camera animation saved as a GIF through `imageio.mimsave`.

The shallow embedding below models
- float values as rationals (every operation the code performs on them —
  subtraction of 1, multiplication by 255, truncation to an integer — is
  exact on the values the claims concern);
- the input file as an optional list of token lines, `none` standing for a
  missing path, each token pre-classified the way the `pandas` tokenizer
  classifies it (numeric literal or other text);
- the `visvis` / Qt / `imageio` layer by the ordered list of observable
  events it is asked to perform, with the fallible per-step draw-and-capture
  call abstracted as an oracle `render : ℕ → Except PyErr (List ℚ)`.
-/

set_option autoImplicit false

/-- A whitespace-delimited token of the input file, as classified by the
`pandas` tokenizer: either a numeric literal (its parsed value) or a
non-numeric string. -/
inductive Tok where
  | num (q : ℚ)
  | str (s : String)
  deriving DecidableEq, Repr

/-- A cell of the DataFrame produced by
`pd.read_csv(filepath, delim_whitespace=True, names=["TYPE","X1","X2","X3"])`
after column dtype inference: `num` is a float value in a numeric column,
`str` non-numeric text in an object column, `numStr` a numeric token kept as
its original text because its column failed numeric inference (object
columns hold the raw strings), and `nan` the `NaN` filling a missing field
of a short record. -/
inductive Cell where
  | num (q : ℚ)
  | str (s : String)
  | numStr (q : ℚ)
  | nan
  deriving DecidableEq, Repr

/-- The Python exceptions the embedded code can raise. `fileNotFound` is
`FileNotFoundError`, `emptyData` and `parserError` are the `pandas` reader
errors, `typeError` is the `TypeError` of subtracting an `int` from a `str`
held in an object array, `nanCast` stands for the `numpy` cast of a
non-finite float to `int`, which has no defined value, `nameError` is a
failed global-name lookup, and `renderError` is any error raised inside the
draw-and-capture calls. -/
inductive PyErr where
  | fileNotFound
  | emptyData
  | parserError
  | typeError
  | nanCast
  | nameError (n : String)
  | renderError
  deriving DecidableEq, Repr

/-- Truncation toward zero of a rational: the conversion C (and therefore
`numpy.astype(int)`) applies to an in-range float. The denominator of a
`Rat` is positive, so `Int.tdiv` of numerator by denominator truncates the
value toward zero. -/
def ratTrunc (q : ℚ) : ℤ := q.num.tdiv q.den

/-- Column `j` of the token lines is numeric when every token present in it
parses as a number; `pandas` then gives the column a float dtype, and
otherwise an object dtype holding the raw strings. -/
def colNumeric (lines : List (List Tok)) (j : ℕ) : Bool :=
  lines.all fun l =>
    match l[j]? with
    | some (Tok.str _) => false
    | _ => true

/-- The DataFrame cell at column `j` of line `l`: a missing field becomes
`NaN`; in a numeric column a token is its float value; in an object column a
numeric token keeps its original text and any other token stays a string. -/
def cellAt (lines : List (List Tok)) (l : List Tok) (j : ℕ) : Cell :=
  match l[j]? with
  | none => Cell.nan
  | some (Tok.num q) => if colNumeric lines j then Cell.num q else Cell.numStr q
  | some (Tok.str s) => Cell.str s

/-- The comparison `df["TYPE"] == t` of a cell with a Python string `t`, for
the tags `"v"` and `"f"` the code compares against: a float never equals a
string, `NaN` equals nothing, and a numeric token kept as text in an object
column is a numeral, which the non-numeric tags `"v"` and `"f"` are not. -/
def cellIsTag (c : Cell) (t : String) : Bool :=
  match c with
  | Cell.str s => s = t
  | _ => false

/-- Elementwise embedding of `shape_model.loc[...].values - 1` on one cell:
floats are decremented, `NaN - 1` is `NaN`, and subtracting an `int` from
the `str` held in an object array raises `TypeError`. -/
def faceSub : Cell → Except PyErr Cell
  | Cell.num q => Except.ok (Cell.num (q - 1))
  | Cell.nan => Except.ok Cell.nan
  | Cell.numStr _ => Except.error PyErr.typeError
  | Cell.str _ => Except.error PyErr.typeError

/-- Elementwise embedding of `.astype(int)` on one cell of the decremented
array: an in-range float truncates toward zero; the cast of a non-finite
value has no defined result and is modelled as a failure, a branch no
theorem below relies on; strings cannot reach this point because the
subtraction already failed on them. -/
def faceCast : Cell → Except PyErr ℤ
  | Cell.num q => Except.ok (ratTrunc q)
  | Cell.nan => Except.error PyErr.nanCast
  | Cell.numStr _ => Except.error PyErr.typeError
  | Cell.str _ => Except.error PyErr.typeError

/-- Left-to-right traversal stopping at the first failure: the order in
which a `numpy` elementwise operation visits an array and raises. -/
def traverseE {α β : Type} (f : α → Except PyErr β) :
    List α → Except PyErr (List β)
  | [] => Except.ok []
  | a :: as =>
    match f a with
    | Except.error e => Except.error e
    | Except.ok b =>
      match traverseE f as with
      | Except.error e => Except.error e
      | Except.ok bs => Except.ok (b :: bs)

/-- Shallow embedding of `load_shape_model`. The argument is the tokenized
file content, `none` when the path does not exist.
`pd.read_csv(filepath, delim_whitespace=True, names=["TYPE","X1","X2","X3"])`
raises `FileNotFoundError` on a missing path, skips blank lines, and raises
`EmptyDataError` when no record remains. The first record fixes the field
count `w`: a later record wider than the first makes the tokenizer raise
`ParserError`, while a shorter record is padded with `NaN`. When the first
record is wider than the four names, the reader does not fail: the extra
leading columns become an implicit row index and the four names label the
trailing columns, so named column `j` holds the token at position
`w - 4 + j` of a record. Rows whose `TYPE` equals `"v"` give the vertex
list verbatim (`.values.tolist()`, with no numeric validation of the
fields); rows whose `TYPE` equals `"f"` have their three fields
decremented by one (`.values - 1`) and then cast with `.astype(int)`. -/
def load_shape_model (file : Option (List (List Tok))) :
    Except PyErr (List (List Cell) × List (List ℤ)) :=
  match file with
  | none => Except.error PyErr.fileNotFound
  | some raw =>
    let lines := raw.filter fun l => !l.isEmpty
    let w := (lines.headD []).length
    if lines.isEmpty then Except.error PyErr.emptyData
    else if lines.any fun l => w < l.length then Except.error PyErr.parserError
    else
      let off := w - 4
      let row := fun (l : List Tok) =>
        [cellAt lines l (off + 1), cellAt lines l (off + 2),
          cellAt lines l (off + 3)]
      let vertices := (lines.filter fun l =>
        cellIsTag (cellAt lines l off) "v").map row
      let faceRows := (lines.filter fun l =>
        cellIsTag (cellAt lines l off) "f").map row
      match traverseE (fun r => traverseE faceSub r) faceRows with
      | Except.error e => Except.error e
      | Except.ok subbed =>
        match traverseE (fun r => traverseE faceCast r) subbed with
        | Except.error e => Except.error e
        | Except.ok faces => Except.ok (vertices, faces)

/-- Observable actions of the `visvis` / Qt / `imageio` layer, in program
order. `createWindow` is the construction of a shown `MainWindow` (the
rendering surface) with the resolution it is resized to; `releaseWindow` is
a window/context teardown, an action for which the source contains no call
on any path; `runApp` is the blocking interactive loop `app.Run()`;
`statFile` is the read-only existence check `pathlib.Path(p).is_file()`;
`downloadFile` is the network fetch `data_fetch.download_file(path, url)`. -/
inductive Ev where
  | useApp
  | createWindow (w h : ℕ)
  | buildMesh (nv nf : ℕ)
  | configureScene
  | setAzimuth (a : ℚ)
  | draw
  | captureFrame
  | saveGif (gifName : String) (nframes : ℕ) (duration : ℚ)
  | releaseWindow
  | runApp
  | statFile (p : String)
  | downloadFile (p u : String)
  deriving DecidableEq, Repr

/-- The animated GIF written by `imageio.mimsave`: its file name, its frames
in insertion order (each a flat list of 8-bit samples), and the per-frame
display duration. -/
structure Gif where
  gifName : String
  frames : List (List ℕ)
  duration : ℚ
  deriving DecidableEq, Repr

/-- The cast `astype(np.uint8)` of one float sample: truncation toward zero,
then reduction into the unsigned 8-bit range (`Int.emod`, matching the
two's-complement wraparound `numpy` applies to in-64-bit-range values). -/
def npUint8 (q : ℚ) : ℕ := (ratTrunc q % 256).toNat

/-- Embedding of `(temp_image * 255).astype(np.uint8)` on one captured
frame, a frame being the flat list of its float samples. -/
def encodeFrame (frame : List ℚ) : List ℕ :=
  frame.map fun s => npUint8 (s * 255)

/-- The camera sweep of `create_animation`: for `azm_angle` in
`range(steps)` the code sets `axes.camera.azimuth = float(azm_angle)`,
redraws, captures one frame with `vv.getframe`, and appends its 8-bit
conversion. The fallible draw-and-capture calls are the oracle `render`;
an error at a step stops the loop there. Returns the events emitted and
either the converted frames of all remaining steps or the first error. -/
def animSteps (render : ℕ → Except PyErr (List ℚ)) :
    ℕ → ℕ → List Ev × Except PyErr (List (List ℕ))
  | 0, _ => ([], Except.ok [])
  | n + 1, i =>
    match render i with
    | Except.error e => ([Ev.setAzimuth (i : ℚ), Ev.draw], Except.error e)
    | Except.ok frame =>
      let rest := animSteps render n (i + 1)
      (Ev.setAzimuth (i : ℚ) :: Ev.draw :: Ev.captureFrame :: rest.1,
       rest.2.map fun fs => encodeFrame frame :: fs)

/-- Shallow embedding of `create_animation`: creates the `visvis`
application and a shown 500x400 `MainWindow`, builds the mesh and
configures shading, camera, background and the single light, sweeps the
azimuth over `steps` steps capturing one frame per step, and saves the
collected frames with `imageio.mimsave(output_gif_name, comet_images,
duration=duration)`. The source defaults are `steps = 360` and
`duration = 0.04`. Returns the events emitted together with the saved GIF
or the first error; the source closes or destroys the window on no path. -/
def create_animation (nv nf : ℕ) (output_gif_name : String) (steps : ℕ)
    (duration : ℚ) (render : ℕ → Except PyErr (List ℚ)) :
    List Ev × Except PyErr Gif :=
  let pre := [Ev.useApp, Ev.createWindow 500 400, Ev.buildMesh nv nf,
    Ev.configureScene]
  let sweep := animSteps render steps 0
  match sweep.2 with
  | Except.error e => (pre ++ sweep.1, Except.error e)
  | Except.ok frames =>
    (pre ++ sweep.1 ++ [Ev.saveGif output_gif_name frames.length duration],
     Except.ok ⟨output_gif_name, frames, duration⟩)

/-- Shallow embedding of `visualize_shape_model`: creates the application
and a shown 500x400 `MainWindow`, builds the mesh, configures the axes and
camera at the given angles (source defaults `azimuth = 120`,
`elevation = 25`), and enters the blocking interactive loop `app.Run()`. -/
def visualize_shape_model (nv nf : ℕ) (azimuth _elevation : ℚ) : List Ev :=
  [Ev.useApp, Ev.createWindow 500 400, Ev.buildMesh nv nf, Ev.configureScene,
   Ev.setAzimuth azimuth, Ev.runApp]

/-- The names bound at module level in `render.py`: the eight imported
names and the five definitions of the module itself. `data_fetch` is not
among them. -/
def moduleGlobals : List String :=
  ["pathlib", "sys", "pd", "np", "imageio", "tqdm", "vv", "QWidget",
   "QHBoxLayout", "MainWindow", "download_shape_model", "load_shape_model",
   "visualize_shape_model", "create_animation", "render_meteorite_model"]

/-- Python resolution of a global name in the module, `none` meaning the
lookup raises `NameError`. -/
def resolve (n : String) : Option String :=
  if moduleGlobals.contains n then some n else none

/-- Shallow embedding of `download_shape_model`: checks whether
`dl_path/model_filename` is a file; when it is, the body is done; when it
is not, it evaluates `data_fetch.download_file(dl_path, model_url)`, whose
receiver name must first be resolved against the module globals. -/
def download_shape_model (dl_path model_filename model_url : String)
    (fileExists : Bool) : List Ev × Except PyErr Unit :=
  let p := dl_path ++ "/" ++ model_filename
  if fileExists then ([Ev.statFile p], Except.ok ())
  else
    match resolve "data_fetch" with
    | none => ([Ev.statFile p], Except.error (PyErr.nameError "data_fetch"))
    | some _ => ([Ev.statFile p, Ev.downloadFile dl_path model_url], Except.ok ())

/-- Shallow embedding of `render_meteorite_model`: ensures the model file is
present, loads it, shows the static interactive view (unconditionally), then
creates the animation. `fileExists` is whether `dl_path/model_filename`
exists, `file` its tokenized content, `render` the draw-and-capture oracle.
Source defaults are `steps = 360` and `duration = 0.04`. -/
def render_meteorite_model (dl_path model_filename model_url output_gif_name :
    String) (steps : ℕ) (duration : ℚ) (fileExists : Bool)
    (file : Option (List (List Tok))) (render : ℕ → Except PyErr (List ℚ)) :
    List Ev × Except PyErr Gif :=
  let dl := download_shape_model dl_path model_filename model_url fileExists
  match dl.2 with
  | Except.error e => (dl.1, Except.error e)
  | Except.ok _ =>
    match load_shape_model file with
    | Except.error e => (dl.1, Except.error e)
    | Except.ok vf =>
      let viz := visualize_shape_model vf.1.length vf.2.length 120 25
      let anim := create_animation vf.1.length vf.2.length output_gif_name
        steps duration render
      (dl.1 ++ viz ++ anim.1, anim.2)

/-- The azimuth values assigned to the camera, in emission order. -/
def azimuths (tr : List Ev) : List ℚ :=
  tr.filterMap fun e =>
    match e with
    | Ev.setAzimuth a => some a
    | _ => none

/-- How many rendering surfaces (shown `MainWindow`s) a trace creates. -/
def countWindows (tr : List Ev) : ℕ :=
  (tr.filter fun e =>
    match e with
    | Ev.createWindow _ _ => true
    | _ => false).length

/-- A `v` record with three numeric fields, as tokenized by the reader. -/
def vLine (p : ℚ × ℚ × ℚ) : List Tok :=
  [Tok.str "v", Tok.num p.1, Tok.num p.2.1, Tok.num p.2.2]

/-- An `f` record whose three one-based fields are the integers of `p`. -/
def fLine (p : ℤ × ℤ × ℤ) : List Tok :=
  [Tok.str "f", Tok.num (p.1 : ℚ), Tok.num (p.2.1 : ℚ), Tok.num (p.2.2 : ℚ)]

/-- A well-formed input file: `v` records followed by `f` records, every
field numeric. -/
def mkFile (vs : List (ℚ × ℚ × ℚ)) (fs : List (ℤ × ℤ × ℤ)) : List (List Tok) :=
  vs.map vLine ++ fs.map fLine

/-- The vertex row the loader stores for a well-formed `v` record. -/
def vCells (p : ℚ × ℚ × ℚ) : List Cell :=
  [Cell.num p.1, Cell.num p.2.1, Cell.num p.2.2]

/-- The face row the loader stores for a well-formed `f` record: each
one-based field decremented by one. -/
def fIdx (p : ℤ × ℤ × ℤ) : List ℤ :=
  [p.1 - 1, p.2.1 - 1, p.2.2 - 1]

/-! Basic facts about the embedded conversions. -/

/-- Truncation toward zero is the identity on integers. -/
theorem ratTrunc_intCast (n : ℤ) : ratTrunc (n : ℚ) = n := by
  rw [ratTrunc, Rat.num_intCast, Rat.den_intCast]
  exact Int.tdiv_one n

/-- On nonnegative rationals, truncation toward zero agrees with the floor. -/
theorem ratTrunc_eq_floor {q : ℚ} (h : 0 ≤ q) : ratTrunc q = ⌊q⌋ := by
  rw [ratTrunc, Rat.floor_def]
  exact Int.tdiv_eq_ediv (Rat.num_nonneg.mpr h) (Int.ofNat_nonneg q.den)

/-- For a unit-interval sample, the 8-bit conversion applied by the encoder
is exactly multiplication by 255 followed by truncation: the modular
reduction of the cast does not act. -/
theorem npUint8_unit {s : ℚ} (h0 : 0 ≤ s) (h1 : s ≤ 1) :
    npUint8 (s * 255) = (⌊s * 255⌋).toNat := by
  have hnn : (0 : ℚ) ≤ s * 255 := by positivity
  have hfl : (0 : ℤ) ≤ ⌊s * 255⌋ := Int.floor_nonneg.mpr hnn
  have hub : (⌊s * 255⌋ : ℚ) ≤ 255 := le_trans (Int.floor_le _) (by nlinarith)
  have hub2 : ⌊s * 255⌋ < 256 := by
    have : (⌊s * 255⌋ : ℤ) ≤ 255 := by exact_mod_cast hub
    omega
  rw [npUint8, ratTrunc_eq_floor hnn, Int.emod_eq_of_lt hfl hub2]

/-! The animation sweep with a draw-and-capture call that always succeeds. -/

/-- A sweep of `n` successful steps starting at step `i`: the trace sets the
azimuth to each of `i, i+1, …, i+n-1` in order, redrawing and capturing
after each, and the collected frames are the 8-bit conversions of the
captured frames in the same order. -/
theorem animSteps_ok (f : ℕ → List ℚ) (n : ℕ) :
    ∀ i : ℕ,
      animSteps (fun j => Except.ok (f j)) n i =
        ((List.range' i n).flatMap fun j =>
            [Ev.setAzimuth (j : ℚ), Ev.draw, Ev.captureFrame],
          Except.ok ((List.range' i n).map fun j => encodeFrame (f j))) := by
  induction n with
  | zero => intro i; rfl
  | succ n ih =>
    intro i
    rw [animSteps, ih (i + 1), List.range'_succ]
    simp [Except.map, List.flatMap_cons]

/-- The azimuth values a successful sweep of `n` steps starting at `i`
assigns, in order: `i, i+1, …, i+n-1`, each cast to float. -/
theorem azimuths_animSteps_ok (f : ℕ → List ℚ) (n : ℕ) :
    ∀ i : ℕ,
      azimuths (animSteps (fun j => Except.ok (f j)) n i).1 =
        (List.range' i n).map fun (j : ℕ) => (j : ℚ) := by
  induction n with
  | zero => intro i; rfl
  | succ n ih =>
    intro i
    rw [animSteps, List.range'_succ]
    simp only [List.map_cons]
    rw [← ih (i + 1)]
    simp [azimuths, List.filterMap_cons]

/-- If the draw-and-capture call fails at step `k` of the sweep and
succeeded at every earlier step, the sweep returns that error. -/
theorem animSteps_error (render : ℕ → Except PyErr (List ℚ)) (e : PyErr) :
    ∀ (k n i : ℕ), k < n → render (i + k) = Except.error e →
      (∀ j, j < k → ∃ fr, render (i + j) = Except.ok fr) →
      (animSteps render n i).2 = Except.error e := by
  intro k
  induction k with
  | zero =>
    intro n i hn hfail _
    obtain ⟨m, rfl⟩ : ∃ m, n = m + 1 := ⟨n - 1, by omega⟩
    rw [animSteps]
    rw [Nat.add_zero] at hfail
    rw [hfail]
  | succ k ih =>
    intro n i hn hfail hok
    obtain ⟨m, rfl⟩ : ∃ m, n = m + 1 := ⟨n - 1, by omega⟩
    obtain ⟨fr, hfr⟩ := hok 0 (Nat.succ_pos k)
    rw [Nat.add_zero] at hfr
    rw [animSteps, hfr]
    simp only []
    have := ih m (i + 1) (by omega)
      (by rw [Nat.add_right_comm]; exact hfail)
      (fun j hj => by
        rw [Nat.add_right_comm]
        exact hok (j + 1) (by omega))
    simp [this, Except.map]

/-- No step of the sweep asks the encoder to save a file. -/
theorem saveGif_not_mem_animSteps (render : ℕ → Except PyErr (List ℚ))
    (nm : String) (c : ℕ) (d : ℚ) (n : ℕ) :
    ∀ i : ℕ, Ev.saveGif nm c d ∉ (animSteps render n i).1 := by
  induction n with
  | zero => intro i h; simp [animSteps] at h
  | succ n ih =>
    intro i
    rw [animSteps]
    cases render i with
    | error e => simp
    | ok fr => simpa using ih (i + 1)

/-- No step of the sweep creates or releases a rendering surface. -/
theorem window_not_mem_animSteps (render : ℕ → Except PyErr (List ℚ))
    (n : ℕ) :
    ∀ i : ℕ, countWindows (animSteps render n i).1 = 0 ∧
      Ev.releaseWindow ∉ (animSteps render n i).1 := by
  induction n with
  | zero => intro i; exact ⟨rfl, fun h => by simp [animSteps] at h⟩
  | succ n ih =>
    intro i
    rw [animSteps]
    cases render i with
    | error e => simp [countWindows]
    | ok fr =>
      obtain ⟨h1, h2⟩ := ih (i + 1)
      refine ⟨?_, by simpa using h2⟩
      simpa [countWindows] using h1

/-- Window counting distributes over trace concatenation. -/
theorem countWindows_append (a b : List Ev) :
    countWindows (a ++ b) = countWindows a + countWindows b := by
  rw [countWindows, countWindows, countWindows, List.filter_append,
    List.length_append]

/-! Evaluation of the loader on well-formed input files. -/

/-- The records of a well-formed file. -/
theorem mem_mkFile {vs : List (ℚ × ℚ × ℚ)} {fs : List (ℤ × ℤ × ℤ)}
    {l : List Tok} :
    l ∈ mkFile vs fs ↔
      (∃ p ∈ vs, vLine p = l) ∨ ∃ p ∈ fs, fLine p = l := by
  simp [mkFile, List.mem_append]

/-- In a four-token record whose last three tokens are numeric, no field
column holds a non-numeric string. -/
theorem tokLineSafe (t : Tok) (a b c : ℚ) (k : ℕ) :
    (match ([t, Tok.num a, Tok.num b, Tok.num c] : List Tok)[k + 1]? with
      | some (Tok.str _) => false
      | _ => true) = true := by
  rcases k with _ | _ | _ | k <;> rfl

/-- Every field column of a well-formed file is numeric. -/
theorem colNumeric_mkFile (vs : List (ℚ × ℚ × ℚ)) (fs : List (ℤ × ℤ × ℤ))
    (k : ℕ) : colNumeric (mkFile vs fs) (k + 1) = true := by
  rw [colNumeric, List.all_eq_true]
  intro l hl
  rcases mem_mkFile.mp hl with ⟨p, _, rfl⟩ | ⟨p, _, rfl⟩
  · exact tokLineSafe _ _ _ _ k
  · exact tokLineSafe _ _ _ _ k

/-- The `TYPE` cell of a well-formed `v` record. -/
theorem cellAt_vLine0 (lines : List (List Tok)) (p : ℚ × ℚ × ℚ) :
    cellAt lines (vLine p) 0 = Cell.str "v" := rfl

/-- The `TYPE` cell of a well-formed `f` record. -/
theorem cellAt_fLine0 (lines : List (List Tok)) (p : ℤ × ℤ × ℤ) :
    cellAt lines (fLine p) 0 = Cell.str "f" := rfl

/-- A numeric token in a numeric column is stored as its float value. -/
theorem cellAt_num (lines : List (List Tok)) (l : List Tok) (j : ℕ) (q : ℚ)
    (hl : l[j]? = some (Tok.num q)) (hc : colNumeric lines j = true) :
    cellAt lines l j = Cell.num q := by
  rw [cellAt, hl]
  simp [hc]

/-- The field row a well-formed `v` record is stored as. -/
theorem row_vLine (vs : List (ℚ × ℚ × ℚ)) (fs : List (ℤ × ℤ × ℤ))
    (p : ℚ × ℚ × ℚ) :
    [cellAt (mkFile vs fs) (vLine p) 1, cellAt (mkFile vs fs) (vLine p) 2,
      cellAt (mkFile vs fs) (vLine p) 3] = vCells p := by
  rw [vCells,
    cellAt_num _ _ 1 p.1 rfl (colNumeric_mkFile vs fs 0),
    cellAt_num _ _ 2 p.2.1 rfl (colNumeric_mkFile vs fs 1),
    cellAt_num _ _ 3 p.2.2 rfl (colNumeric_mkFile vs fs 2)]

/-- The field row a well-formed `f` record is stored as. -/
theorem row_fLine (vs : List (ℚ × ℚ × ℚ)) (fs : List (ℤ × ℤ × ℤ))
    (p : ℤ × ℤ × ℤ) :
    [cellAt (mkFile vs fs) (fLine p) 1, cellAt (mkFile vs fs) (fLine p) 2,
      cellAt (mkFile vs fs) (fLine p) 3] =
      [Cell.num (p.1 : ℚ), Cell.num (p.2.1 : ℚ), Cell.num (p.2.2 : ℚ)] := by
  rw [cellAt_num _ _ 1 (p.1 : ℚ) rfl (colNumeric_mkFile vs fs 0),
    cellAt_num _ _ 2 (p.2.1 : ℚ) rfl (colNumeric_mkFile vs fs 1),
    cellAt_num _ _ 3 (p.2.2 : ℚ) rfl (colNumeric_mkFile vs fs 2)]

/-- Filtering a well-formed file for `v` records keeps exactly the `v`
records, in order. -/
theorem filter_v_mkFile (vs : List (ℚ × ℚ × ℚ)) (fs : List (ℤ × ℤ × ℤ)) :
    ((mkFile vs fs).filter fun l =>
        cellIsTag (cellAt (mkFile vs fs) l 0) "v") = vs.map vLine := by
  rw [mkFile, List.filter_append, List.filter_map, List.filter_map]
  have h1 : ∀ p : ℚ × ℚ × ℚ,
      cellIsTag (cellAt (mkFile vs fs) (vLine p) 0) "v" = true := fun p => rfl
  have h2 : ∀ p : ℤ × ℤ × ℤ,
      cellIsTag (cellAt (mkFile vs fs) (fLine p) 0) "v" = false := fun p => rfl
  rw [List.filter_eq_self.mpr]
  · rw [List.filter_eq_nil_iff.mpr]
    · simp
    · intro p _ h
      rw [Function.comp_apply] at h
      rw [mkFile] at h2
      simp [h2 p] at h
  · intro p _
    rw [Function.comp_apply]
    rw [mkFile] at h1
    exact h1 p

/-- Filtering a well-formed file for `f` records keeps exactly the `f`
records, in order. -/
theorem filter_f_mkFile (vs : List (ℚ × ℚ × ℚ)) (fs : List (ℤ × ℤ × ℤ)) :
    ((mkFile vs fs).filter fun l =>
        cellIsTag (cellAt (mkFile vs fs) l 0) "f") = fs.map fLine := by
  rw [mkFile, List.filter_append, List.filter_map, List.filter_map]
  have h1 : ∀ p : ℚ × ℚ × ℚ,
      cellIsTag (cellAt (mkFile vs fs) (vLine p) 0) "f" = false := fun p => rfl
  have h2 : ∀ p : ℤ × ℤ × ℤ,
      cellIsTag (cellAt (mkFile vs fs) (fLine p) 0) "f" = true := fun p => rfl
  rw [List.filter_eq_nil_iff.mpr]
  · rw [List.filter_eq_self.mpr]
    · simp
    · intro p _
      rw [Function.comp_apply]
      rw [mkFile] at h2
      exact h2 p
  · intro p _ h
    rw [Function.comp_apply] at h
    rw [mkFile] at h1
    simp [h1 p] at h

/-- Decrementing the field rows of well-formed `f` records succeeds and
subtracts one from every float. -/
theorem traverseE_faceSub (fs : List (ℤ × ℤ × ℤ)) :
    traverseE (fun r => traverseE faceSub r)
        (fs.map fun p => [Cell.num (p.1 : ℚ), Cell.num (p.2.1 : ℚ),
          Cell.num (p.2.2 : ℚ)]) =
      Except.ok (fs.map fun p => [Cell.num ((p.1 : ℚ) - 1),
        Cell.num ((p.2.1 : ℚ) - 1), Cell.num ((p.2.2 : ℚ) - 1)]) := by
  induction fs with
  | nil => rfl
  | cons p fs ih => simp [traverseE, faceSub, ih]

/-- Casting the decremented rows to `int` succeeds and produces the
zero-based index rows. -/
theorem traverseE_faceCast (fs : List (ℤ × ℤ × ℤ)) :
    traverseE (fun r => traverseE faceCast r)
        (fs.map fun p => [Cell.num ((p.1 : ℚ) - 1), Cell.num ((p.2.1 : ℚ) - 1),
          Cell.num ((p.2.2 : ℚ) - 1)]) =
      Except.ok (fs.map fIdx) := by
  have key : ∀ n : ℤ, ratTrunc ((n : ℚ) - 1) = n - 1 := by
    intro n
    have h : ((n : ℚ) - 1) = ((n - 1 : ℤ) : ℚ) := by push_cast; ring
    rw [h, ratTrunc_intCast]
  induction fs with
  | nil => rfl
  | cons p fs ih => simp [traverseE, faceCast, ih, fIdx, key]

/-- The first record of a nonempty well-formed file has four fields, so
the reader's field count is four and no column is an index column. -/
theorem headD_mkFile_length (vs : List (ℚ × ℚ × ℚ)) (fs : List (ℤ × ℤ × ℤ))
    (h : mkFile vs fs ≠ []) : ((mkFile vs fs).headD []).length = 4 := by
  cases vs with
  | cons p vs => rfl
  | nil =>
    cases fs with
    | cons p fs => rfl
    | nil => exact absurd rfl h

/-- On a nonempty well-formed file the loader succeeds: the stored vertices
are the `v` records' float rows in order, and the stored faces are the `f`
records' integer rows, each field decremented by one, in order. -/
theorem load_mkFile (vs : List (ℚ × ℚ × ℚ)) (fs : List (ℤ × ℤ × ℤ))
    (h : mkFile vs fs ≠ []) :
    load_shape_model (some (mkFile vs fs)) =
      Except.ok (vs.map vCells, fs.map fIdx) := by
  have hfilter : ((mkFile vs fs).filter fun l => !l.isEmpty) = mkFile vs fs := by
    rw [List.filter_eq_self]
    intro l hl
    rcases mem_mkFile.mp hl with ⟨p, _, rfl⟩ | ⟨p, _, rfl⟩ <;> rfl
  have hempty : (mkFile vs fs).isEmpty = false := List.isEmpty_eq_false.mpr h
  have hw : ((mkFile vs fs).headD []).length = 4 := headD_mkFile_length vs fs h
  have hany : ((mkFile vs fs).any fun l => 4 < l.length) = false := by
    rw [List.any_eq_false]
    intro l hl
    rcases mem_mkFile.mp hl with ⟨p, _, rfl⟩ | ⟨p, _, rfl⟩ <;>
      simp [vLine, fLine]
  have hv : List.map ((fun l => [cellAt (mkFile vs fs) l 1,
        cellAt (mkFile vs fs) l 2, cellAt (mkFile vs fs) l 3]) ∘ vLine) vs =
      List.map vCells vs :=
    List.map_congr_left fun p _ => row_vLine vs fs p
  have hf : List.map ((fun l => [cellAt (mkFile vs fs) l 1,
        cellAt (mkFile vs fs) l 2, cellAt (mkFile vs fs) l 3]) ∘ fLine) fs =
      List.map (fun p : ℤ × ℤ × ℤ => [Cell.num (p.1 : ℚ),
        Cell.num (p.2.1 : ℚ), Cell.num (p.2.2 : ℚ)]) fs :=
    List.map_congr_left fun p _ => row_fLine vs fs p
  rw [load_shape_model]
  simp only [hfilter, hw, hempty, hany, Bool.false_eq_true, if_false,
    Nat.sub_self, Nat.zero_add, filter_v_mkFile, filter_f_mkFile,
    List.map_map, hv, hf, traverseE_faceSub, traverseE_faceCast]

/-- When the target file exists, `download_shape_model` only performs the
read-only existence check and returns. -/
theorem download_exists (dp mf mu : String) :
    download_shape_model dp mf mu true =
      ([Ev.statFile (dp ++ "/" ++ mf)], Except.ok ()) := rfl

/-- When the target file is missing, the fetch branch evaluates the global
name `data_fetch`, which the module never binds, and raises `NameError`
before any download can start. -/
theorem download_missing (dp mf mu : String) :
    download_shape_model dp mf mu false =
      ([Ev.statFile (dp ++ "/" ++ mf)],
        Except.error (PyErr.nameError "data_fetch")) := by
  rw [download_shape_model, resolve]
  simp [moduleGlobals]

/-- The sweep inside `create_animation` creates no rendering surface, and
`create_animation` itself creates exactly one — and never releases it,
whether the sweep succeeds or fails. -/
theorem create_animation_window (nv nf : ℕ) (gifName : String) (steps : ℕ)
    (duration : ℚ) (render : ℕ → Except PyErr (List ℚ)) :
    countWindows (create_animation nv nf gifName steps duration render).1 =
        1 ∧
    Ev.releaseWindow ∉
      (create_animation nv nf gifName steps duration render).1 := by
  obtain ⟨hw, hr⟩ := window_not_mem_animSteps render steps 0
  rw [create_animation]
  cases hsw : (animSteps render steps 0).2 with
  | error e =>
    rw [hsw] at *
    constructor
    · rw [countWindows_append, hw]
      rfl
    · intro hmem
      rcases List.mem_append.mp hmem with h | h
      · simp at h
      · exact hr h
  | ok frames =>
    rw [hsw] at *
    constructor
    · rw [countWindows_append, countWindows_append, hw]
      rfl
    · intro hmem
      rcases List.mem_append.mp hmem with h | h
      · rcases List.mem_append.mp h with h | h
        · simp at h
        · exact hr h
      · simp at h

/-- The pipeline with an existing model file and loadable content: its
trace is the existence check, then the interactive static view, then the
animation's trace, and its result is the animation's result. -/
theorem render_meteorite_model_run (dp mf mu og : String) (steps : ℕ)
    (duration : ℚ) (file : Option (List (List Tok)))
    (render : ℕ → Except PyErr (List ℚ))
    (vf : List (List Cell) × List (List ℤ))
    (hload : load_shape_model file = Except.ok vf) :
    render_meteorite_model dp mf mu og steps duration true file render =
      ([Ev.statFile (dp ++ "/" ++ mf)] ++
        visualize_shape_model vf.1.length vf.2.length 120 25 ++
        (create_animation vf.1.length vf.2.length og steps duration
          render).1,
       (create_animation vf.1.length vf.2.length og steps duration
          render).2) := by
  rw [render_meteorite_model, download_exists, hload]

/-! The claims. -/

/-- Claim C1: for every positive `steps = N` and a draw-and-capture call
that succeeds at every step, `create_animation` collects exactly `N`
frames, appended in step order — the `i`-th saved frame is the 8-bit
conversion of the frame captured at step `i` — the camera azimuth assigned
at step `i` is the float value `i`, so the azimuth sequence is
`0.0, 1.0, …, N-1.0`, and this order is preserved into the encoded
output. -/
theorem C1_animation_frames (nv nf : ℕ) (gifName : String) (steps : ℕ)
    (duration : ℚ) (f : ℕ → List ℚ) (hpos : 0 < steps) :
    (create_animation nv nf gifName steps duration
        (fun j => Except.ok (f j))).2 =
      Except.ok ⟨gifName, (List.range steps).map fun j => encodeFrame (f j),
        duration⟩ ∧
    ((List.range steps).map fun j => encodeFrame (f j)).length = steps ∧
    azimuths (create_animation nv nf gifName steps duration
        (fun j => Except.ok (f j))).1 =
      (List.range steps).map fun (j : ℕ) => (j : ℚ) := by
  have h := animSteps_ok f steps 0
  have ha := azimuths_animSteps_ok f steps 0
  rw [List.range_eq_range']
  refine ⟨?_, by simp, ?_⟩
  · rw [create_animation, h]
  · rw [create_animation, h]
    show azimuths (_ ++ _ ++ _) = _
    rw [azimuths, List.filterMap_append, List.filterMap_append]
    rw [azimuths] at ha
    rw [h] at ha
    simp only [ha]
    simp

/-- Witness for C1 at `steps = 2` with a constant captured frame. -/
theorem C1_witness :
    0 < 2 ∧
    ((create_animation 1 1 "a.gif" 2 (1/25)
        (fun _ => Except.ok [(1:ℚ)/2])).2 =
      Except.ok ⟨"a.gif", (List.range 2).map fun _ => encodeFrame [(1:ℚ)/2],
        1/25⟩ ∧
    ((List.range 2).map fun _ => encodeFrame [(1:ℚ)/2]).length = 2 ∧
    azimuths (create_animation 1 1 "a.gif" 2 (1/25)
        (fun _ => Except.ok [(1:ℚ)/2])).1 =
      (List.range 2).map fun (j : ℕ) => (j : ℚ)) :=
  ⟨by decide,
    C1_animation_frames 1 1 "a.gif" 2 (1/25) (fun _ => [(1:ℚ)/2]) (by decide)⟩

/-- Claim C2: the loader decrements each of the three index fields of every
face record by exactly one, uniformly over all face records of the file. -/
theorem C2_face_decrement (vs : List (ℚ × ℚ × ℚ)) (fs : List (ℤ × ℤ × ℤ))
    (h : fs ≠ []) :
    load_shape_model (some (mkFile vs fs)) =
      Except.ok (vs.map vCells, fs.map fIdx) :=
  load_mkFile vs fs (by
    intro e
    rw [mkFile] at e
    rcases List.append_eq_nil.mp e with ⟨_, h2⟩
    exact h (List.map_eq_nil_iff.mp h2))

/-- Witness for C2 at the record `f 1 2 3`: the stored face is `(0, 1, 2)`. -/
theorem C2_witness :
    load_shape_model (some (mkFile [] [(1, 2, 3)])) =
      Except.ok ([], [[0, 1, 2]]) :=
  C2_face_decrement [] [(1, 2, 3)] (by decide)

/-- Claim C3 is false on the code: for the one-vertex file
`v 0 0 0` / `f 0 2 3` the loader succeeds and stores the face
`(-1, 1, 2)` — the index `-1` is negative and `1, 2` are not below the
vertex count `1`, yet no `ParseError` is raised and nothing is rejected. -/
theorem C3_counterexample :
    load_shape_model (some (mkFile [(0, 0, 0)] [(0, 2, 3)])) =
      Except.ok ([[Cell.num 0, Cell.num 0, Cell.num 0]], [[-1, 1, 2]]) ∧
    ¬(0 ≤ (-1 : ℤ)) ∧ ¬((2 : ℤ) < 1) := by
  exact ⟨load_mkFile [(0, 0, 0)] [(0, 2, 3)] (by decide), by decide, by decide⟩

/-- Claim C3 (amended): the loader applies the one-based-to-zero-based
decrement uniformly but performs no range validation at all: for all
integer face fields `a b c` — negative-sign and out-of-range values
included — and every vertex list, loading succeeds and stores
`(a-1, b-1, c-1)`; no `ParseError` is raised, and the stored indices need
not lie in `[0, len(vertices))`. -/
theorem C3_no_range_validation (a b c : ℤ) (vs : List (ℚ × ℚ × ℚ)) :
    load_shape_model (some (mkFile vs [(a, b, c)])) =
      Except.ok (vs.map vCells, [[a - 1, b - 1, c - 1]]) :=
  load_mkFile vs [(a, b, c)] (by
    intro e
    rw [mkFile] at e
    rcases List.append_eq_nil.mp e with ⟨_, h2⟩
    simp at h2)

/-- Claim C6: for every captured frame whose samples lie in the unit
interval, the encoder input is obtained by multiplying each sample by 255
and truncating — equivalently taking the floor, since the values are
nonnegative — never rounding (the sample `1/100` with value `2.55` after
scaling maps to `2`, not to the nearest integer `3`); every converted
sample fits in the 0–255 range, and the conversion is a pure function of
the samples, so identical renderer output yields identical bytes. -/
theorem C6_encode_truncates (frame : List ℚ)
    (h : ∀ s ∈ frame, 0 ≤ s ∧ s ≤ 1) :
    encodeFrame frame = frame.map (fun s => (⌊s * 255⌋).toNat) ∧
    (∀ b ∈ encodeFrame frame, b ≤ 255) ∧
    encodeFrame [1/100] = [2] := by
  have demo : encodeFrame [1/100] = [2] := by
    have h1 : ((1:ℚ)/100) * 255 = 51/20 := by norm_num
    have h2 : (0:ℚ) ≤ 51/20 := by norm_num
    have h3 : ⌊(51:ℚ)/20⌋ = 2 := by norm_num
    show [npUint8 ((1/100) * 255)] = [2]
    rw [npUint8, h1, ratTrunc_eq_floor h2, h3]
    rfl
  refine ⟨?_, ?_, demo⟩
  · rw [encodeFrame]
    exact List.map_congr_left fun s hs => npUint8_unit (h s hs).1 (h s hs).2
  · intro b hb
    rw [encodeFrame] at hb
    rcases List.mem_map.mp hb with ⟨s, hs, rfl⟩
    rw [npUint8_unit (h s hs).1 (h s hs).2]
    have hub : (⌊s * 255⌋ : ℚ) ≤ 255 :=
      le_trans (Int.floor_le _) (by nlinarith [(h s hs).1, (h s hs).2])
    have : ⌊s * 255⌋ ≤ 255 := by exact_mod_cast hub
    omega

/-- Witness for C6 at the frame `[0, 1/100, 1/2, 1]`. -/
theorem C6_witness :
    (∀ s ∈ [(0:ℚ), 1/100, 1/2, 1], 0 ≤ s ∧ s ≤ 1) ∧
    (encodeFrame [(0:ℚ), 1/100, 1/2, 1] =
        [(0:ℚ), 1/100, 1/2, 1].map (fun s => (⌊s * 255⌋).toNat) ∧
      (∀ b ∈ encodeFrame [(0:ℚ), 1/100, 1/2, 1], b ≤ 255) ∧
      encodeFrame [1/100] = [2]) :=
  have hmem : ∀ s ∈ [(0:ℚ), 1/100, 1/2, 1], 0 ≤ s ∧ s ≤ 1 := by
    norm_num [List.forall_mem_cons]
  ⟨hmem, C6_encode_truncates [(0:ℚ), 1/100, 1/2, 1] hmem⟩

/-- Claim C7: if the draw-and-capture call fails at a step `k < steps` of
the sweep, every earlier step having succeeded, the whole animation aborts:
`create_animation` returns that error and no request to save a file is ever
emitted — the partially collected frame sequence is discarded, never passed
to the encoder, and no output file is produced. -/
theorem C7_abort_on_step_failure (nv nf : ℕ) (gifName : String)
    (steps : ℕ) (duration : ℚ) (render : ℕ → Except PyErr (List ℚ))
    (k : ℕ) (e : PyErr) (hk : k < steps)
    (hfail : render k = Except.error e)
    (hok : ∀ j, j < k → ∃ fr, render j = Except.ok fr) :
    (create_animation nv nf gifName steps duration render).2 =
        Except.error e ∧
    ∀ nm c d, Ev.saveGif nm c d ∉
      (create_animation nv nf gifName steps duration render).1 := by
  have h2 : (animSteps render steps 0).2 = Except.error e :=
    animSteps_error render e k steps 0 hk (by simpa using hfail)
      (fun j hj => by simpa using hok j hj)
  have hsave := saveGif_not_mem_animSteps render
  rw [create_animation, h2]
  refine ⟨rfl, fun nm c d hmem => ?_⟩
  rcases List.mem_append.mp hmem with h | h
  · simp at h
  · exact hsave nm c d steps 0 h

/-- Witness for C7: the very first step failing at `steps = 1`. -/
theorem C7_witness :
    0 < 1 ∧
    ((create_animation 1 1 "a.gif" 1 (1/25)
        (fun _ => Except.error PyErr.renderError)).2 =
        Except.error PyErr.renderError ∧
    ∀ nm c d, Ev.saveGif nm c d ∉
      (create_animation 1 1 "a.gif" 1 (1/25)
        (fun _ => Except.error PyErr.renderError)).1) :=
  ⟨by decide,
    C7_abort_on_step_failure 1 1 "a.gif" 1 (1/25)
      (fun _ => Except.error PyErr.renderError) 0 PyErr.renderError
      (by decide) rfl (fun j hj => absurd hj (Nat.not_lt_zero j))⟩

/-- The animation on an always-successful draw-and-capture call saves the
GIF of all collected frames. -/
theorem create_animation_ok_total (nv nf : ℕ) (og : String) (steps : ℕ)
    (d : ℚ) (f : ℕ → List ℚ) :
    (create_animation nv nf og steps d (fun j => Except.ok (f j))).2 =
      Except.ok ⟨og, (List.range' 0 steps).map fun j => encodeFrame (f j),
        d⟩ := by
  rw [create_animation, animSteps_ok f steps 0]

/-- The three exit paths of the pipeline: a missing file or unloadable
content stops after the existence check, and otherwise the run goes through
the static view and the animation. -/
theorem render_meteorite_model_cases (dp mf mu og : String) (steps : ℕ)
    (duration : ℚ) (fe : Bool) (file : Option (List (List Tok)))
    (render : ℕ → Except PyErr (List ℚ)) :
    (∃ e, render_meteorite_model dp mf mu og steps duration fe file render =
        ([Ev.statFile (dp ++ "/" ++ mf)], Except.error e)) ∨
    ∃ vf, load_shape_model file = Except.ok vf ∧
      render_meteorite_model dp mf mu og steps duration fe file render =
        ([Ev.statFile (dp ++ "/" ++ mf)] ++
          visualize_shape_model vf.1.length vf.2.length 120 25 ++
          (create_animation vf.1.length vf.2.length og steps duration
            render).1,
         (create_animation vf.1.length vf.2.length og steps duration
            render).2) := by
  cases fe with
  | false =>
    left
    exact ⟨PyErr.nameError "data_fetch", by
      rw [render_meteorite_model, download_missing]⟩
  | true =>
    cases hl : load_shape_model file with
    | error e =>
      left
      exact ⟨e, by rw [render_meteorite_model, download_exists, hl]⟩
    | ok vf =>
      right
      exact ⟨vf, rfl, render_meteorite_model_run dp mf mu og steps duration
        file render vf hl⟩

/-- Claim C8 is false on the code: a concrete pipeline run that produces
the animation output still creates the on-screen display windows and runs
the blocking interactive loop of the static view — the display is not
substitutable away. -/
theorem C8_counterexample :
    (render_meteorite_model "d" "m" "u" "o.gif" 1 1 true
        (some (mkFile [(0, 0, 0)] [(1, 2, 3)]))
        (fun _ => Except.ok [0])).2.isOk = true ∧
    Ev.createWindow 500 400 ∈ (render_meteorite_model "d" "m" "u" "o.gif" 1 1
        true (some (mkFile [(0, 0, 0)] [(1, 2, 3)]))
        (fun _ => Except.ok [0])).1 ∧
    Ev.runApp ∈ (render_meteorite_model "d" "m" "u" "o.gif" 1 1 true
        (some (mkFile [(0, 0, 0)] [(1, 2, 3)]))
        (fun _ => Except.ok [0])).1 := by
  have hrun := render_meteorite_model_run "d" "m" "u" "o.gif" 1 1
    (some (mkFile [(0, 0, 0)] [(1, 2, 3)])) (fun _ => Except.ok [0])
    ([[Cell.num 0, Cell.num 0, Cell.num 0]], [[0, 1, 2]])
    (load_mkFile [(0, 0, 0)] [(1, 2, 3)] (by decide))
  rw [hrun]
  refine ⟨?_, by simp [visualize_shape_model], by simp [visualize_shape_model]⟩
  show (create_animation 1 1 "o.gif" 1 1 fun _ => Except.ok [0]).2.isOk = true
  rw [create_animation_ok_total 1 1 "o.gif" 1 1 (fun _ => [(0:ℚ)])]
  rfl

/-- Claim C8 (amended): the display window is not optional. Whenever the
top-level pipeline produces the animation output, its trace runs the
blocking interactive loop `app.Run()` of the static view and creates two
on-screen display windows — one for the static view and one inside
`create_animation` — so no headless path exists. -/
theorem C8_window_not_optional (dp mf mu og : String) (steps : ℕ)
    (duration : ℚ) (fe : Bool) (file : Option (List (List Tok)))
    (render : ℕ → Except PyErr (List ℚ))
    (hok : (render_meteorite_model dp mf mu og steps duration fe file
        render).2.isOk = true) :
    Ev.runApp ∈ (render_meteorite_model dp mf mu og steps duration fe file
        render).1 ∧
    Ev.createWindow 500 400 ∈ (render_meteorite_model dp mf mu og steps
        duration fe file render).1 ∧
    countWindows (render_meteorite_model dp mf mu og steps duration fe file
        render).1 = 2 := by
  rcases render_meteorite_model_cases dp mf mu og steps duration fe file
      render with ⟨e, heq⟩ | ⟨vf, hl, heq⟩
  · rw [heq] at hok
    simp [Except.isOk, Except.toBool] at hok
  · rw [heq]
    obtain ⟨hw1, hr1⟩ := create_animation_window vf.1.length vf.2.length og
      steps duration render
    refine ⟨by simp [visualize_shape_model], by simp [visualize_shape_model],
      ?_⟩
    rw [countWindows_append, countWindows_append, hw1]
    norm_num [countWindows, visualize_shape_model]

/-- Witness for C8 (amended) at a concrete successful run. -/
theorem C8_witness :
    Ev.runApp ∈ (render_meteorite_model "d" "m" "u" "w.gif" 1 1 true
        (some (mkFile [(0, 0, 0)] [(1, 2, 3)]))
        (fun _ => Except.ok [0])).1 ∧
    Ev.createWindow 500 400 ∈ (render_meteorite_model "d" "m" "u" "w.gif" 1 1
        true (some (mkFile [(0, 0, 0)] [(1, 2, 3)]))
        (fun _ => Except.ok [0])).1 ∧
    countWindows (render_meteorite_model "d" "m" "u" "w.gif" 1 1 true
        (some (mkFile [(0, 0, 0)] [(1, 2, 3)]))
        (fun _ => Except.ok [0])).1 = 2 :=
  C8_window_not_optional "d" "m" "u" "w.gif" 1 1 true
    (some (mkFile [(0, 0, 0)] [(1, 2, 3)])) (fun _ => Except.ok [0]) (by
      rw [render_meteorite_model_run "d" "m" "u" "w.gif" 1 1
        (some (mkFile [(0, 0, 0)] [(1, 2, 3)])) (fun _ => Except.ok [0])
        ([[Cell.num 0, Cell.num 0, Cell.num 0]], [[0, 1, 2]])
        (load_mkFile [(0, 0, 0)] [(1, 2, 3)] (by decide))]
      show (create_animation 1 1 "w.gif" 1 1
        fun _ => Except.ok [0]).2.isOk = true
      rw [create_animation_ok_total 1 1 "w.gif" 1 1 (fun _ => [(0:ℚ)])]
      rfl)

/-- Claim C9 is false on the code: in a concrete successful run of the
pipeline, the rendering surface is created twice — not once — and no
release of a window ever appears in the trace. -/
theorem C9_counterexample :
    countWindows (render_meteorite_model "d2" "m2" "u2" "p.gif" 1 1 true
        (some (mkFile [(1, 1, 1)] [(1, 1, 1)]))
        (fun _ => Except.ok [1])).1 = 2 ∧
    Ev.releaseWindow ∉ (render_meteorite_model "d2" "m2" "u2" "p.gif" 1 1
        true (some (mkFile [(1, 1, 1)] [(1, 1, 1)]))
        (fun _ => Except.ok [1])).1 := by
  have hrun := render_meteorite_model_run "d2" "m2" "u2" "p.gif" 1 1
    (some (mkFile [(1, 1, 1)] [(1, 1, 1)])) (fun _ => Except.ok [1])
    ([[Cell.num 1, Cell.num 1, Cell.num 1]], [[0, 0, 0]])
    (load_mkFile [(1, 1, 1)] [(1, 1, 1)] (by decide))
  rw [hrun]
  obtain ⟨hw1, hr1⟩ := create_animation_window 1 1 "p.gif" 1 1
    (fun _ => Except.ok [1])
  constructor
  · show countWindows ([Ev.statFile ("d2" ++ "/" ++ "m2")] ++
        visualize_shape_model 1 1 120 25 ++
        (create_animation 1 1 "p.gif" 1 1 fun _ => Except.ok [1]).1) = 2
    rw [countWindows_append, countWindows_append, hw1]
    norm_num [countWindows, visualize_shape_model]
  · intro hmem
    rcases List.mem_append.mp hmem with h | h
    · rcases List.mem_append.mp h with h | h
      · simp at h
      · simp [visualize_shape_model] at h
    · exact hr1 h

/-- Claim C9 (amended): on every exit path of the pipeline — renderer
failure included — no release or teardown of the rendering surface is ever
performed, and a run that produces the animation output has created the
surface twice (once for the static view and once in `create_animation`),
not once. -/
theorem C9_no_release (dp mf mu og : String) (steps : ℕ) (duration : ℚ)
    (fe : Bool) (file : Option (List (List Tok)))
    (render : ℕ → Except PyErr (List ℚ)) :
    Ev.releaseWindow ∉ (render_meteorite_model dp mf mu og steps duration fe
        file render).1 ∧
    ((render_meteorite_model dp mf mu og steps duration fe file
        render).2.isOk = true →
      countWindows (render_meteorite_model dp mf mu og steps duration fe
        file render).1 = 2) := by
  rcases render_meteorite_model_cases dp mf mu og steps duration fe file
      render with ⟨e, heq⟩ | ⟨vf, hl, heq⟩
  · rw [heq]
    constructor
    · intro hmem
      simp at hmem
    · intro hok
      simp [Except.isOk, Except.toBool] at hok
  · rw [heq]
    obtain ⟨hw1, hr1⟩ := create_animation_window vf.1.length vf.2.length og
      steps duration render
    constructor
    · intro hmem
      rcases List.mem_append.mp hmem with h | h
      · rcases List.mem_append.mp h with h | h
        · simp at h
        · simp [visualize_shape_model] at h
      · exact hr1 h
    · intro _
      rw [countWindows_append, countWindows_append, hw1]
      norm_num [countWindows, visualize_shape_model]

/-- Witness for C9 (amended) at a concrete successful run. -/
theorem C9_witness :
    Ev.releaseWindow ∉ (render_meteorite_model "d3" "m3" "u3" "q.gif" 2 1
        true (some (mkFile [(2, 2, 2)] [(1, 2, 3)]))
        (fun _ => Except.ok [0])).1 ∧
    countWindows (render_meteorite_model "d3" "m3" "u3" "q.gif" 2 1 true
        (some (mkFile [(2, 2, 2)] [(1, 2, 3)]))
        (fun _ => Except.ok [0])).1 = 2 :=
  ⟨(C9_no_release "d3" "m3" "u3" "q.gif" 2 1 true
      (some (mkFile [(2, 2, 2)] [(1, 2, 3)])) (fun _ => Except.ok [0])).1,
    (C9_no_release "d3" "m3" "u3" "q.gif" 2 1 true
      (some (mkFile [(2, 2, 2)] [(1, 2, 3)])) (fun _ => Except.ok [0])).2 (by
        rw [render_meteorite_model_run "d3" "m3" "u3" "q.gif" 2 1
          (some (mkFile [(2, 2, 2)] [(1, 2, 3)])) (fun _ => Except.ok [0])
          ([[Cell.num 2, Cell.num 2, Cell.num 2]], [[0, 1, 2]])
          (load_mkFile [(2, 2, 2)] [(1, 2, 3)] (by decide))]
        show (create_animation 1 1 "q.gif" 2 1
          fun _ => Except.ok [0]).2.isOk = true
        rw [create_animation_ok_total 1 1 "q.gif" 2 1 (fun _ => [(0:ℚ)])]
        rfl)⟩

/-- Claim C10: when `dl_path/model_filename` exists, `download_shape_model`
returns without raising, performing only the read-only existence check —
no network access and no write; when the file does not exist, the fetch
branch must first resolve the global name `data_fetch`, which the module
never imports or defines, so the call raises `NameError` and the download
path can never run. -/
theorem C10_download_dead_path (dp mf mu : String) :
    download_shape_model dp mf mu true =
      ([Ev.statFile (dp ++ "/" ++ mf)], Except.ok ()) ∧
    download_shape_model dp mf mu false =
      ([Ev.statFile (dp ++ "/" ++ mf)],
        Except.error (PyErr.nameError "data_fetch")) ∧
    resolve "data_fetch" = none :=
  ⟨download_exists dp mf mu, download_missing dp mf mu, by
    rw [resolve]
    simp [moduleGlobals]⟩
